import Mathlib

/-!
Verification of the SEO analyzer pipeline (`streamlit_app.py`).

The embedding models the pure core of the program:
- `fetch_html_content` : the TTL-cached fetcher, with the network as an oracle
  and the memo cache made explicit (Streamlit `st.cache_data` stores the
  function's return value — including `None` — keyed by its arguments);
- `parse_html` : the HTML extractor, with BeautifulSoup abstracted as a
  `SoupModel` oracle; the returned Python dict is modelled by `PyDict`, whose
  fields are `Option`s because the function returns the empty dict `{}` for
  empty input;
- `check_query_presence` : the presence matcher (Python `in` on lowercased
  strings becomes `strSub` on lowercased strings);
- `process_data` : branded-term filtering;
- `select_top_queries` : the per-page query selector (`pandas.sort_values`
  is modelled by a descending insertion sort on the key column);
- `processCompletion` : the body of the main loop run at each completed
  fetch, updating the session state (results list and processed-URL set).
-/

/-- A row of the Google Search Console data frame: one query for one landing
page with its click and impression counts. -/
structure QueryRow where
  query : String
  clicks : Nat
  impressions : Nat
  landing_page : String
deriving DecidableEq

/-- Python `needle in hay` for strings starting at the head: `needle` is a
prefix of `hay`. -/
def leadsWith : List Char → List Char → Bool
  | [], _ => true
  | _ :: _, [] => false
  | a :: as, b :: bs => a == b && leadsWith as bs

/-- Python substring containment `needle in hay` on exploded strings. -/
def hasSub (n : List Char) : List Char → Bool
  | [] => n.isEmpty
  | c :: rest => leadsWith n (c :: rest) || hasSub n rest

/-- Python `needle in hay` for two strings. -/
def strSub (needle hay : String) : Bool :=
  hasSub needle.toList hay.toList

/-- Python `s.lower()`, modelled characterwise (faithful on ASCII text). -/
def pyLower (s : String) : String :=
  String.mk (s.data.map Char.toLower)

/-- The Python dict returned by `parse_html`.  Every field is optional
because the function returns the empty dict `{}` on empty input; downstream
code reads fields with `dict.get(key, default)`. -/
structure PyDict where
  title : Option String := none
  meta : Option String := none
  h1 : Option (List String) := none
  h2 : Option (List String) := none
  h3 : Option (List String) := none
  body : Option String := none
deriving DecidableEq

/-- The eight named booleans produced by `check_query_presence`. -/
structure PresenceVector where
  title : Bool
  meta : Bool
  h1 : Bool
  h2_1 : Bool
  h2_2 : Bool
  h3_1 : Bool
  h3_2 : Bool
  body : Bool
deriving DecidableEq

/-- What BeautifulSoup extracts from one HTML document: first title text,
`content` of the first `meta name="description"`, all h1/h2/h3 texts in
document order, and the body text.  The parser itself is out of scope, so it
enters the model as an oracle `String → SoupModel`. -/
structure SoupModel where
  titleText : Option String
  metaDescription : Option String
  h1s : List String
  h2s : List String
  h3s : List String
  bodyText : Option String

/-- Model of `parse_html` from the source: empty (falsy) input returns the empty dict;
otherwise each of the six keys is populated from the soup, with `''` when the
element is missing. -/
def parse_html (soup : String → SoupModel) (html : String) : PyDict :=
  if html.isEmpty then {}
  else
    let s := soup html
    { title := some (s.titleText.getD "")
      meta := some (s.metaDescription.getD "")
      h1 := some s.h1s
      h2 := some s.h2s
      h3 := some s.h3s
      body := some (s.bodyText.getD "") }

/-- Model of `check_query_presence` from the source: the query is lowercased once;
Title/Meta/Body are substring tests on the lowercased field (default `''`),
H1 tests every element, H2-1/H2-2 and H3-1/H3-2 test exactly index 0 and 1
of the lowercased element lists (default `[]`), guarded by a length check. -/
def check_query_presence (parsed_html : PyDict) (query : String) : PresenceVector :=
  let q := pyLower query
  { title := strSub q (pyLower (parsed_html.title.getD ""))
    meta := strSub q (pyLower (parsed_html.meta.getD ""))
    h1 := (parsed_html.h1.getD []).any (fun h => strSub q (pyLower h))
    h2_1 := match parsed_html.h2.getD [] with
      | [] => false
      | x :: _ => strSub q (pyLower x)
    h2_2 := match parsed_html.h2.getD [] with
      | _ :: y :: _ => strSub q (pyLower y)
      | _ => false
    h3_1 := match parsed_html.h3.getD [] with
      | [] => false
      | x :: _ => strSub q (pyLower x)
    h3_2 := match parsed_html.h3.getD [] with
      | _ :: y :: _ => strSub q (pyLower y)
      | _ => false
    body := strSub q (pyLower (parsed_html.body.getD "")) }

/-- The empty Python string is a substring of every string. -/
theorem strSub_empty (hay : String) : strSub "" hay = true := by
  show hasSub [] hay.toList = true
  induction hay.toList with
  | nil => rfl
  | cons c rest ih => simp [hasSub, leadsWith]

example : strSub "shoes" "running shoes" = true := by decide
example : strSub "shoes" "shoe care" = false := by decide
example : strSub "" "" = true := by decide

/-- Model of `process_data` from the source: the empty frame maps to the empty frame;
with a non-empty branded-term list, rows whose lowercased Query contains any
lowercased term as a substring are dropped; with an empty (falsy) term list
the frame passes through untouched. -/
def process_data (df : List QueryRow) (branded_terms : List String) : List QueryRow :=
  if df.isEmpty then []
  else if branded_terms.isEmpty then df
  else df.filter (fun r => !(branded_terms.any (fun t => strSub (pyLower t) (pyLower r.query))))

/-- Model of `pandas.DataFrame.sort_values(key, ascending=False)`, written as a
descending insertion sort on the key column.  (The source leaves pandas'
`kind` at its default `quicksort`, whose tie order is not specified; every
property proved below is independent of the tie order.) -/
def sortDescBy (key : QueryRow → Nat) (l : List QueryRow) : List QueryRow :=
  List.insertionSort (fun a b => key b ≤ key a) l

/-- Line 84-85 of the source: rows with `Clicks > 0`, sorted descending by
Clicks, first 8 taken. -/
def top_by_clicks (group : List QueryRow) : List QueryRow :=
  (sortDescBy (fun r => r.clicks) (group.filter (fun r => decide (0 < r.clicks)))).take 8

/-- Line 89 of the source, `group[~group['Query'].isin(top_by_clicks['Query'])]`:
rows whose Query VALUE does not occur among the Query values already picked
by clicks. -/
def remaining_queries (group : List QueryRow) : List QueryRow :=
  group.filter (fun r => decide (r.query ∉ (top_by_clicks group).map QueryRow.query))

/-- Model of `select_top_queries` from the source: up to 8 rows by clicks, then the
remaining slots (out of 10) filled from the not-yet-picked Query values by
descending Impressions. -/
def select_top_queries (group : List QueryRow) : List QueryRow :=
  if 0 < 10 - (top_by_clicks group).length then
    top_by_clicks group ++
      (sortDescBy (fun r => r.impressions) (remaining_queries group)).take
        (10 - (top_by_clicks group).length)
  else top_by_clicks group

/-- Our sort model permutes its input (any faithful model of
`sort_values` does). -/
theorem sortDescBy_perm (key : QueryRow → Nat) (l : List QueryRow) :
    List.Perm (sortDescBy key l) l :=
  List.perm_insertionSort _ l

/-- The by-clicks tier has at most 8 rows. -/
theorem top_by_clicks_length_le (g : List QueryRow) :
    (top_by_clicks g).length ≤ 8 := by
  unfold top_by_clicks
  simp [List.length_take]

/-- The by-clicks tier is a sub-multiset of its input group. -/
theorem top_by_clicks_subperm (g : List QueryRow) :
    List.Subperm (top_by_clicks g) g := by
  have h1 : List.Sublist (top_by_clicks g)
      (sortDescBy (fun r => r.clicks) (g.filter (fun r => decide (0 < r.clicks)))) :=
    List.take_sublist _ _
  have h2 := sortDescBy_perm (fun r => r.clicks)
      (g.filter (fun r => decide (0 < r.clicks)))
  exact (h1.subperm.trans h2.subperm).trans (List.filter_sublist g).subperm

/-- One analysis output row: URL, the query row's numbers, and its presence
vector. -/
structure AnalysisRecord where
  url : String
  query : String
  clicks : Nat
  impressions : Nat
  presence : PresenceVector
deriving DecidableEq

/-- The session state touched by the main loop: the accumulated result rows
and the set of processed URLs (a Python `set`, modelled as a duplicate-free
insertion list). -/
structure SessionState where
  results : List AnalysisRecord
  processed : List String
deriving DecidableEq

/-- Python `set.add`: no duplicate is created. -/
def setInsert (u : String) (s : List String) : List String :=
  if u ∈ s then s else s ++ [u]

/-- Lines 146-158 of the source: parse the fetched HTML, restrict the frame
to this URL's rows, select the top queries, and emit one record per selected
query. -/
def recordsFor (soup : String → SoupModel) (url : String) (html : String)
    (df : List QueryRow) : List AnalysisRecord :=
  let parsed_html := parse_html soup html
  let url_group := df.filter (fun r => decide (r.landing_page = url))
  (select_top_queries url_group).map (fun r =>
    { url := url, query := r.query, clicks := r.clicks, impressions := r.impressions
      presence := check_query_presence parsed_html r.query })

/-- Lines 141-164 of the source, the body run for each completed fetch:
records are appended only when the fetched content is truthy (not `None`,
not the empty string); the URL is added to the processed set in every case. -/
def processCompletion (soup : String → SoupModel) (url : String)
    (html_content : Option String) (df : List QueryRow) (st : SessionState) :
    SessionState :=
  let st1 : SessionState :=
    match html_content with
    | some html =>
        if html.isEmpty then st
        else { st with results := st.results ++ recordsFor soup url html df }
    | none => st
  { st1 with processed := setInsert url st1.processed }

/-- The memo table and network-call log of the cached fetcher.  The cache maps
a URL to the stored return value (which may be the failure value `none`);
`netCalls` records every URL for which the wrapped function actually ran. -/
structure FetchState where
  cache : List (String × Option String)
  netCalls : List String
deriving DecidableEq

/-- Lookup in the memo table. -/
def cacheLookup (url : String) : List (String × Option String) → Option (Option String)
  | [] => none
  | (k, v) :: rest => if k = url then some v else cacheLookup url rest

/-- Model of `fetch_html_content` under `st.cache_data(ttl=3600)`: on a cache hit the
stored value is returned and the network is not touched; on a miss the
wrapped body runs — it returns the page text on success and `None` on any
exception — and its return value is stored whatever it is.  The network is the oracle
`net`; a `none` from it is the caught-exception path. -/
def fetch_html_content (net : String → Option String) (url : String)
    (st : FetchState) : Option String × FetchState :=
  match cacheLookup url st.cache with
  | some v => (v, st)
  | none =>
      let v := net url
      (v, ⟨(url, v) :: st.cache, st.netCalls ++ [url]⟩)

/-- C5: for every parsed content and query, the H1 presence field is true
iff the lowercased query is a substring of SOME lowercased H1 element, while
H2-1/H2-2 (and H3-1/H3-2) are true iff the element at index 0 resp. 1 of the
H2 (resp. H3) sequence exists and contains the lowercased query — an
out-of-range index gives false, with no fallback to other elements. -/
theorem C5_heading_fields (p : PyDict) (q : String) :
    ((check_query_presence p q).h1 = true ↔
      ∃ h ∈ p.h1.getD [], strSub (pyLower q) (pyLower h) = true) ∧
    ((check_query_presence p q).h2_1 = true ↔
      ∃ x, (p.h2.getD [])[0]? = some x ∧ strSub (pyLower q) (pyLower x) = true) ∧
    ((check_query_presence p q).h2_2 = true ↔
      ∃ x, (p.h2.getD [])[1]? = some x ∧ strSub (pyLower q) (pyLower x) = true) ∧
    ((check_query_presence p q).h3_1 = true ↔
      ∃ x, (p.h3.getD [])[0]? = some x ∧ strSub (pyLower q) (pyLower x) = true) ∧
    ((check_query_presence p q).h3_2 = true ↔
      ∃ x, (p.h3.getD [])[1]? = some x ∧ strSub (pyLower q) (pyLower x) = true) := by
  refine ⟨?_, ?_, ?_, ?_, ?_⟩
  · simp [check_query_presence, List.any_eq_true]
  · rcases h : p.h2.getD [] with _ | ⟨a, t⟩ <;> simp [check_query_presence, h]
  · rcases h : p.h2.getD [] with _ | ⟨a, _ | ⟨b, t⟩⟩ <;>
      simp [check_query_presence, h]
  · rcases h : p.h3.getD [] with _ | ⟨a, t⟩ <;> simp [check_query_presence, h]
  · rcases h : p.h3.getD [] with _ | ⟨a, _ | ⟨b, t⟩⟩ <;>
      simp [check_query_presence, h]

/-- C8: the presence matcher is case-insensitive in the query — two queries
with the same lowercasing give equal presence vectors on every parsed
content. -/
theorem C8_case_insensitive (p : PyDict) (q1 q2 : String)
    (h : pyLower q1 = pyLower q2) :
    check_query_presence p q1 = check_query_presence p q2 := by
  simp [check_query_presence, h]

/-- C8 witness: "Shoes" and "shoes" on a concrete parsed page. -/
theorem C8_case_insensitive_witness :
    pyLower "Shoes" = pyLower "shoes" ∧
    check_query_presence
        { title := some "Best Shoes", h2 := some ["Running Shoes", "Shoe Care"] }
        "Shoes" =
      check_query_presence
        { title := some "Best Shoes", h2 := some ["Running Shoes", "Shoe Care"] }
        "shoes" :=
  ⟨by decide,
   C8_case_insensitive
     { title := some "Best Shoes", h2 := some ["Running Shoes", "Shoe Care"] }
     "Shoes" "shoes" (by decide)⟩

/-- C9: with an empty branded-term list, `process_data` is the identity on
every non-empty input frame. -/
theorem C9_empty_branded_identity (df : List QueryRow) (h : df ≠ []) :
    process_data df [] = df := by
  cases df with
  | nil => exact absurd rfl h
  | cons r rest => simp [process_data]

/-- C9 witness: a concrete one-row frame passes through unchanged. -/
theorem C9_empty_branded_identity_witness :
    ([⟨"q", 1, 2, "u"⟩] : List QueryRow) ≠ [] ∧
    process_data [⟨"q", 1, 2, "u"⟩] [] = [⟨"q", 1, 2, "u"⟩] :=
  ⟨by decide, C9_empty_branded_identity [⟨"q", 1, 2, "u"⟩] (by decide)⟩

/-- C10: for the empty query, Title/Meta/Body are true on every parsed
content, H1 is true iff the H1 sequence is non-empty, and each of
H2-1/H2-2/H3-1/H3-2 is true iff index 0 resp. 1 exists in the corresponding
sequence. -/
theorem C10_empty_query (p : PyDict) :
    (check_query_presence p "").title = true ∧
    (check_query_presence p "").meta = true ∧
    (check_query_presence p "").body = true ∧
    ((check_query_presence p "").h1 = true ↔ p.h1.getD [] ≠ []) ∧
    ((check_query_presence p "").h2_1 = true ↔ 0 < (p.h2.getD []).length) ∧
    ((check_query_presence p "").h2_2 = true ↔ 1 < (p.h2.getD []).length) ∧
    ((check_query_presence p "").h3_1 = true ↔ 0 < (p.h3.getD []).length) ∧
    ((check_query_presence p "").h3_2 = true ↔ 1 < (p.h3.getD []).length) := by
  have hlow : pyLower "" = "" := rfl
  refine ⟨?_, ?_, ?_, ?_, ?_, ?_, ?_, ?_⟩
  · simp [check_query_presence, hlow, strSub_empty]
  · simp [check_query_presence, hlow, strSub_empty]
  · simp [check_query_presence, hlow, strSub_empty]
  · rcases h : p.h1.getD [] with _ | ⟨a, t⟩ <;>
      simp [check_query_presence, hlow, strSub_empty, h]
  · rcases h : p.h2.getD [] with _ | ⟨a, t⟩ <;>
      simp [check_query_presence, hlow, strSub_empty, h]
  · rcases h : p.h2.getD [] with _ | ⟨a, _ | ⟨b, t⟩⟩ <;>
      simp [check_query_presence, hlow, strSub_empty, h]
  · rcases h : p.h3.getD [] with _ | ⟨a, t⟩ <;>
      simp [check_query_presence, hlow, strSub_empty, h]
  · rcases h : p.h3.getD [] with _ | ⟨a, _ | ⟨b, t⟩⟩ <;>
      simp [check_query_presence, hlow, strSub_empty, h]

/-- C6: for every input group the selector returns at most 10 rows, and at
most as many rows as the group holds — no padding and no row duplicated
beyond its multiplicity in the input. -/
theorem C6_selector_length (g : List QueryRow) :
    (select_top_queries g).length ≤ 10 ∧
      (select_top_queries g).length ≤ g.length := by
  classical
  have h8 := top_by_clicks_length_le g
  have hif : 0 < 10 - (top_by_clicks g).length := by omega
  have hsel : select_top_queries g =
      top_by_clicks g ++
        (sortDescBy (fun r => r.impressions) (remaining_queries g)).take
          (10 - (top_by_clicks g).length) := by
    unfold select_top_queries
    rw [if_pos hif]
  have htbi_sub : List.Subperm
      ((sortDescBy (fun r => r.impressions) (remaining_queries g)).take
        (10 - (top_by_clicks g).length))
      (remaining_queries g) :=
    (List.take_sublist _ _).subperm.trans (sortDescBy_perm _ _).subperm
  constructor
  · rw [hsel, List.length_append]
    have htk := List.length_take_le (10 - (top_by_clicks g).length)
      (sortDescBy (fun r => r.impressions) (remaining_queries g))
    omega
  · rw [hsel, List.length_append]
    have htbc_m : (top_by_clicks g : Multiset QueryRow) ≤
        Multiset.filter
          (fun r => r.query ∈ (top_by_clicks g).map QueryRow.query)
          (g : Multiset QueryRow) := by
      rw [Multiset.le_filter]
      refine ⟨Multiset.coe_le.mpr (top_by_clicks_subperm g), ?_⟩
      intro r hr
      rw [Multiset.mem_coe] at hr
      exact List.mem_map_of_mem _ hr
    have hrq : ((remaining_queries g : List QueryRow) : Multiset QueryRow) =
        Multiset.filter
          (fun r => ¬ r.query ∈ (top_by_clicks g).map QueryRow.query)
          (g : Multiset QueryRow) := by
      rw [Multiset.filter_coe]
      rfl
    have htbi_m : (((sortDescBy (fun r => r.impressions)
            (remaining_queries g)).take
          (10 - (top_by_clicks g).length) : List QueryRow) : Multiset QueryRow) ≤
        Multiset.filter
          (fun r => ¬ r.query ∈ (top_by_clicks g).map QueryRow.query)
          (g : Multiset QueryRow) := by
      rw [← hrq]
      exact Multiset.coe_le.mpr htbi_sub
    have hle : (top_by_clicks g : Multiset QueryRow) +
        (((sortDescBy (fun r => r.impressions)
            (remaining_queries g)).take
          (10 - (top_by_clicks g).length) : List QueryRow) : Multiset QueryRow) ≤
        (g : Multiset QueryRow) :=
      le_trans (add_le_add htbc_m htbi_m)
        (le_of_eq (Multiset.filter_add_not _ _))
    have hcard := Multiset.card_le_card hle
    rw [Multiset.card_add, Multiset.coe_card, Multiset.coe_card,
      Multiset.coe_card] at hcard
    omega

/-- A soup oracle for a page with no extractable elements; the claims that
use it concern inputs on which the oracle is never consulted or its content
is irrelevant. -/
def soupTrivial : String → SoupModel :=
  fun _ => ⟨none, none, [], [], [], none⟩

/-- A network oracle on which every request fails (the fetcher's caught
exception path). -/
def netFail : String → Option String :=
  fun _ => none

/-- C3 counterexample: two distinct rows share the Query text "a"; the row
with clicks is picked into by-clicks, and the OTHER row is then excluded
from the by-impressions candidate pool (which comes out empty), so the
selector output keeps only the first row — exclusion is by Query value, not
by row identity. -/
theorem C3_counterexample :
    remaining_queries [⟨"a", 5, 0, "u"⟩, ⟨"a", 0, 100, "u"⟩] = [] ∧
      select_top_queries [⟨"a", 5, 0, "u"⟩, ⟨"a", 0, 100, "u"⟩] =
        [⟨"a", 5, 0, "u"⟩] := by
  decide

/-- C3 amended: exclusion from the by-impressions candidates is by Query
VALUE — every row whose Query text equals that of some by-clicks row is
removed from the candidate pool, even when it is a distinct row. -/
theorem C3_exclusion_by_query_value (g : List QueryRow) (r r2 : QueryRow)
    (h1 : r ∈ top_by_clicks g) (h2 : r2.query = r.query) :
    r2 ∉ remaining_queries g := by
  intro hmem
  rw [remaining_queries, List.mem_filter] at hmem
  rw [decide_eq_true_iff] at hmem
  exact hmem.2 (h2 ▸ List.mem_map_of_mem QueryRow.query h1)

/-- C3 amended witness: the two-row group above. -/
theorem C3_exclusion_by_query_value_witness :
    (⟨"a", 5, 0, "u"⟩ : QueryRow) ∈
        top_by_clicks [⟨"a", 5, 0, "u"⟩, ⟨"a", 0, 100, "u"⟩] ∧
      (⟨"a", 0, 100, "u"⟩ : QueryRow).query = (⟨"a", 5, 0, "u"⟩ : QueryRow).query ∧
      (⟨"a", 0, 100, "u"⟩ : QueryRow) ∉
        remaining_queries [⟨"a", 5, 0, "u"⟩, ⟨"a", 0, 100, "u"⟩] :=
  ⟨by decide, by decide,
    C3_exclusion_by_query_value [⟨"a", 5, 0, "u"⟩, ⟨"a", 0, 100, "u"⟩]
      ⟨"a", 5, 0, "u"⟩ ⟨"a", 0, 100, "u"⟩ (by decide) (by decide)⟩

/-- C7 counterexample: on empty input `parse_html` returns the EMPTY dict —
all six fields are absent, none is present with an empty value. -/
theorem C7_counterexample :
    (parse_html soupTrivial "").title = none ∧
      (parse_html soupTrivial "").meta = none ∧
      (parse_html soupTrivial "").h1 = none ∧
      (parse_html soupTrivial "").h2 = none ∧
      (parse_html soupTrivial "").h3 = none ∧
      (parse_html soupTrivial "").body = none := by
  decide

/-- C7 amended: for empty input `parse_html` raises nothing and returns the
empty dict, in which every one of the six fields is absent; downstream reads
go through defaulting `get` access, so the absent fields behave as empty
values. -/
theorem C7_empty_input_empty_dict (soup : String → SoupModel) :
    parse_html soup "" = {} := by
  rfl

/-- C4 counterexample: with every request failing, the first fetch of "u"
STORES the failure in the cache (the cache holds an entry for "u"), and a
second fetch within the TTL returns the cached failure without touching the
network (the call log still holds exactly one entry). -/
theorem C4_counterexample :
    (cacheLookup "u" (fetch_html_content netFail "u" ⟨[], []⟩).2.cache).isSome
        = true ∧
      (fetch_html_content netFail "u"
          (fetch_html_content netFail "u" ⟨[], []⟩).2).1 = none ∧
      (fetch_html_content netFail "u"
          (fetch_html_content netFail "u" ⟨[], []⟩).2).2.netCalls = ["u"] := by
  decide

/-- C4 amended: the memoizing wrapper caches every return value, failures
included — after a failed fetch of a previously-unseen URL the cache holds
the failure for it, and a repeated fetch within the TTL returns that cached
failure and performs no further network call. -/
theorem C4_failures_cached (net : String → Option String) (url : String)
    (st : FetchState) (hmiss : cacheLookup url st.cache = none)
    (hfail : net url = none) :
    (fetch_html_content net url st).1 = none ∧
      cacheLookup url (fetch_html_content net url st).2.cache = some none ∧
      (fetch_html_content net url (fetch_html_content net url st).2).1 = none ∧
      (fetch_html_content net url (fetch_html_content net url st).2).2.netCalls =
        st.netCalls ++ [url] := by
  have h1 : fetch_html_content net url st =
      (none, ⟨(url, none) :: st.cache, st.netCalls ++ [url]⟩) := by
    simp [fetch_html_content, hmiss, hfail]
  have h2 : cacheLookup url ((url, none) :: st.cache) = some none := by
    simp [cacheLookup]
  have h3 : fetch_html_content net url
        ⟨(url, none) :: st.cache, st.netCalls ++ [url]⟩ =
      (none, ⟨(url, none) :: st.cache, st.netCalls ++ [url]⟩) := by
    simp [fetch_html_content, h2]
  refine ⟨?_, ?_, ?_, ?_⟩ <;> rw [h1] <;> simp [h2, h3]

/-- C4 amended witness: the failing network on the empty cache. -/
theorem C4_failures_cached_witness :
    cacheLookup "u" (FetchState.mk [] []).cache = none ∧
      netFail "u" = none ∧
      (fetch_html_content netFail "u" ⟨[], []⟩).1 = none ∧
      cacheLookup "u" (fetch_html_content netFail "u" ⟨[], []⟩).2.cache
        = some none ∧
      (fetch_html_content netFail "u"
          (fetch_html_content netFail "u" ⟨[], []⟩).2).1 = none ∧
      (fetch_html_content netFail "u"
          (fetch_html_content netFail "u" ⟨[], []⟩).2).2.netCalls
        = (FetchState.mk [] []).netCalls ++ ["u"] :=
  ⟨rfl, rfl,
    (C4_failures_cached netFail "u" ⟨[], []⟩ rfl rfl).1,
    (C4_failures_cached netFail "u" ⟨[], []⟩ rfl rfl).2.1,
    (C4_failures_cached netFail "u" ⟨[], []⟩ rfl rfl).2.2.1,
    (C4_failures_cached netFail "u" ⟨[], []⟩ rfl rfl).2.2.2⟩

/-- C1 counterexample: a one-row frame for URL "u" whose fetch fails: one
query is selected for the URL, yet the completed loop body appends ZERO
records (not one all-false record per selected query); the URL is still
marked processed. -/
theorem C1_counterexample :
    (select_top_queries
        (([⟨"q", 1, 2, "u"⟩] : List QueryRow).filter
          (fun r => decide (r.landing_page = "u")))).length = 1 ∧
      (processCompletion soupTrivial "u" none [⟨"q", 1, 2, "u"⟩] ⟨[], []⟩).results
        = [] ∧
      (processCompletion soupTrivial "u" none [⟨"q", 1, 2, "u"⟩] ⟨[], []⟩).processed
        = ["u"] := by
  decide

/-- C1 amended: when the fetch of a not-yet-processed URL fails, the loop
body leaves the result list untouched — no record is emitted for any of the
URL's selected queries — while the URL is still added to the processed set
exactly once; the batch continues past it. -/
theorem C1_failed_fetch_no_records (soup : String → SoupModel) (url : String)
    (df : List QueryRow) (st : SessionState) (h : url ∉ st.processed) :
    (processCompletion soup url none df st).results = st.results ∧
      (processCompletion soup url none df st).processed
        = st.processed ++ [url] ∧
      (processCompletion soup url none df st).processed.count url = 1 := by
  refine ⟨rfl, ?_, ?_⟩
  · simp [processCompletion, setInsert, h]
  · have hz : st.processed.count url = 0 := List.count_eq_zero.mpr h
    simp [processCompletion, setInsert, h, List.count_append, hz]

/-- C1 amended witness: the concrete one-row frame with a failed fetch. -/
theorem C1_failed_fetch_no_records_witness :
    "u" ∉ (SessionState.mk [] []).processed ∧
      (processCompletion soupTrivial "u" none [⟨"q", 1, 2, "u"⟩] ⟨[], []⟩).results
        = (SessionState.mk [] []).results ∧
      (processCompletion soupTrivial "u" none [⟨"q", 1, 2, "u"⟩]
          ⟨[], []⟩).processed = (SessionState.mk [] []).processed ++ ["u"] ∧
      (processCompletion soupTrivial "u" none [⟨"q", 1, 2, "u"⟩]
          ⟨[], []⟩).processed.count "u" = 1 :=
  ⟨by decide,
    (C1_failed_fetch_no_records soupTrivial "u" [⟨"q", 1, 2, "u"⟩] ⟨[], []⟩
      (by decide)).1,
    (C1_failed_fetch_no_records soupTrivial "u" [⟨"q", 1, 2, "u"⟩] ⟨[], []⟩
      (by decide)).2.1,
    (C1_failed_fetch_no_records soupTrivial "u" [⟨"q", 1, 2, "u"⟩] ⟨[], []⟩
      (by decide)).2.2⟩
